import Mathlib

/-!
Verification of the NARR OPeNDAP subsetting tutorial
(`docs/pangeo_forge_recipes/tutorials/xarray_zarr/opendap_subset_recipe.ipynb`).

The notebook's executable content is embedded shallowly:
* `Dataset` models an in-memory xarray dataset: a list of named variables
  (values abstracted to a type `V`), a set of coordinate names (a variable is
  classified as a coordinate field exactly when its name is in
  `coord_names`, otherwise as a data field), and attribute metadata.
* `Dataset.set_coords` models `xarray.Dataset.set_coords`: it checks that each
  requested name is a variable of the dataset (raising `ValueError` otherwise,
  embedded as `Except.error`) and returns a fresh dataset whose coordinate-name
  set additionally contains the requested names.
* `SetProjectionAsCoord.set_projection_as_coord` embeds the notebook's
  `SetProjectionAsCoord._set_projection_as_coord` and
  `SetProjectionAsCoord.expand` embeds its `expand`, with `Beam.Map` as the
  element-wise map semantics of `beam.Map` over a `PCollection` (a list),
  where a raising callable fails the whole collection.
* `format_function` embeds the notebook's `format_function`.
* `FilePattern` is modelled from the spec (the pattern library is part of this
  repository but its source is not included here), as is `storeToZarr`.
* `Stage` / `transforms` / `Stage.run` / `runPipeline` embed the notebook's
  assembled pipeline expression and give it a sequential semantics, with the
  external `OpenWithXarray` opener abstracted as a function `String → Dataset V`.
-/

set_option autoImplicit false

universe u

/-- A structured dataset: named variables (with values in `V`), the subset of
variable names classified as coordinates, and attribute metadata.  This mirrors
the xarray data model in which a `Dataset` holds a mapping of variables plus a
set `_coord_names`; a variable is a coordinate field iff its name is in that
set, and a data field otherwise. -/
structure Dataset (V : Type u) where
  vars : List (String × V)
  coord_names : List String
  attrs : List (String × String)
deriving Repr

/-- `ds` has a variable named `name` (coordinate or data field). -/
def Dataset.hasVariable {V : Type u} (ds : Dataset V) (name : String) : Bool :=
  ds.vars.any (fun p => p.1 == name)

/-- `name` is classified as a coordinate field of `ds`. -/
def Dataset.isCoord {V : Type u} (ds : Dataset V) (name : String) : Bool :=
  ds.hasVariable name && ds.coord_names.contains name

/-- `name` is classified as a data field of `ds`. -/
def Dataset.isDataVar {V : Type u} (ds : Dataset V) (name : String) : Bool :=
  ds.hasVariable name && !ds.coord_names.contains name

/-- Add `n` to a set of names represented as a duplicate-free list, keeping the
list unchanged when `n` is already present (the embedding of a Python
`set.update` with a single element). -/
def insertName (l : List String) (n : String) : List String :=
  if l.contains n then l else l ++ [n]

/-- The message of the `ValueError` raised by `xarray.Dataset.set_coords` when
a requested name is not a variable of the dataset. -/
def missingVariableError : String :=
  "One or more of the specified variables cannot be found in this dataset"

/-- Embeds `xarray.Dataset.set_coords(names)`: assert every requested name is a
variable of the dataset (else raise `ValueError`), then return a new dataset
with the same variables and attributes whose coordinate-name set additionally
contains `names`. -/
def Dataset.set_coords {V : Type u} (ds : Dataset V) (names : List String) :
    Except String (Dataset V) :=
  if names.all (fun n => ds.hasVariable n) then
    .ok { vars := ds.vars,
          coord_names := names.foldl insertName ds.coord_names,
          attrs := ds.attrs }
  else
    .error missingVariableError

namespace SetProjectionAsCoord

/-- Embeds the notebook's `SetProjectionAsCoord._set_projection_as_coord`:
```
index, ds = item
ds = ds.set_coords(["Lambert_Conformal"])
return index, ds
```
A raised exception from `set_coords` propagates as `Except.error`. -/
def set_projection_as_coord {ι V : Type} (item : ι × Dataset V) :
    Except String (ι × Dataset V) :=
  match item.2.set_coords ["Lambert_Conformal"] with
  | .ok ds => .ok (item.1, ds)
  | .error e => .error e

end SetProjectionAsCoord

namespace Beam

/-- Element-wise map semantics of `beam.Map(f)` applied to a `PCollection`
(modelled as a list): each element is processed by `f`, and an exception raised
on any element fails the collection. -/
def Map {α β : Type} (f : α → Except String β) : List α → Except String (List β)
  | [] => .ok []
  | a :: l =>
    match f a with
    | .error e => .error e
    | .ok b =>
      match Map f l with
      | .error e => .error e
      | .ok bs => .ok (b :: bs)

end Beam

namespace SetProjectionAsCoord

/-- Embeds the notebook's `SetProjectionAsCoord.expand`:
`return pcoll | beam.Map(self._set_projection_as_coord)`. -/
def expand {ι V : Type} (pcoll : List (ι × Dataset V)) :
    Except String (List (ι × Dataset V)) :=
  Beam.Map set_projection_as_coord pcoll

end SetProjectionAsCoord

/-- Embeds the notebook's `format_function`:
`f"https://psl.noaa.gov/thredds/dodsC/Datasets/NARR/pressure/air.{time}.nc"`. -/
def format_function (time : String) : String :=
  "https://psl.noaa.gov/thredds/dodsC/Datasets/NARR/pressure/air." ++ time ++ ".nc"

/-- Modelled from the spec: the pattern-description object
(`pangeo_forge_recipes.patterns.FilePattern` with a single `ConcatDim`, whose
source is not included in this repository snapshot).  It holds a formatting
function, the single concatenation dimension with its list of keys, and the
file type; it enumerates one item per key. -/
structure FilePattern where
  format_fn : String → String
  concat_dim : String
  keys : List String
  file_type : String

/-- Modelled from the spec: `FilePattern.items()` enumerates, in key order, one
indexed input item per time label: the label's position key on the
concatenation dimension paired with the formatted URL. -/
def FilePattern.items (p : FilePattern) : List ((String × String) × String) :=
  p.keys.map (fun k => ((p.concat_dim, k), p.format_fn k))

/-- Modelled from the spec: `FilePattern.combine_dim_keys`, the combine
(concatenation) dimensions of the pattern — here the single concat dimension. -/
def FilePattern.combine_dim_keys (p : FilePattern) : List String :=
  [p.concat_dim]

/-- Embeds the notebook's `time_dim = ConcatDim("time", ["197901"])`. -/
def time_dim : String × List String :=
  ("time", ["197901"])

/-- Embeds the notebook's
`pattern = FilePattern(format_function, time_dim, file_type="opendap")`. -/
def pattern : FilePattern :=
  { format_fn := format_function,
    concat_dim := time_dim.1,
    keys := time_dim.2,
    file_type := "opendap" }

/-- Embeds the notebook's `store_name = "output.zarr"`. -/
def store_name : String := "output.zarr"

/-- A chunked array store on disk: its filesystem path, its per-dimension
chunk sizes, and the stored dataset fragments. -/
structure ZarrStore (V : Type) where
  path : String
  chunks : List (String × Nat)
  datasets : List (Dataset V)

/-- Modelled from the spec: `StoreToZarr` writes the combined result of the
dataset fragments to a chunked store at `target_root/store_name`, chunked with
the specified target chunking scheme (the combining itself is external; the
fragments are kept as given). -/
def StoreToZarr {V : Type} (sname target_root : String)
    (combine_dims : List String) (target_chunks : List (String × Nat))
    (fragments : List ((String × String) × Dataset V)) : ZarrStore V :=
  let _ := combine_dims
  { path := target_root ++ "/" ++ sname,
    chunks := target_chunks,
    datasets := fragments.map (fun p => p.2) }

/-- One stage of the assembled pipeline expression. -/
inductive Stage where
  | create (items : List ((String × String) × String))
  | openURLWithFSSpec
  | openWithXarray (file_type : String)
  | setProjectionAsCoord
  | storeToZarr (sname : String) (target_root : String)
      (combine_dims : List String) (target_chunks : List (String × Nat))
deriving Repr, DecidableEq

/-- Embeds the notebook's assembled pipeline:
```
transforms = (
    beam.Create(pattern.items())
    | OpenWithXarray(file_type=pattern.file_type)
    | SetProjectionAsCoord()
    | StoreToZarr(store_name=store_name, target_root=target_root,
                  combine_dims=pattern.combine_dim_keys,
                  target_chunks={"time": 1})
)
```
`target_root` is the name of a temporary directory, so it is a parameter. -/
def transforms (target_root : String) : List Stage :=
  [ .create pattern.items,
    .openWithXarray pattern.file_type,
    .setProjectionAsCoord,
    .storeToZarr store_name target_root pattern.combine_dim_keys [("time", 1)] ]

/-- The data flowing between pipeline stages: enumerated input items, opened
indexed dataset fragments, or the final chunked store. -/
inductive PipeData (V : Type) where
  | items (its : List ((String × String) × String))
  | datasets (dss : List ((String × String) × Dataset V))
  | store (st : ZarrStore V)

/-- Sequential semantics of one pipeline stage.  `open_fn` abstracts the
external `OpenWithXarray` opener (URL to in-memory dataset);
`OpenURLWithFSSpec` (imported but unused by the notebook) passes items
through unchanged. -/
def Stage.run {V : Type} (open_fn : String → Dataset V) :
    Stage → PipeData V → Except String (PipeData V)
  | .create its, _ => .ok (.items its)
  | .openURLWithFSSpec, d => .ok d
  | .openWithXarray _, .items its =>
      .ok (.datasets (its.map (fun p => (p.1, open_fn p.2))))
  | .openWithXarray _, _ => .error "OpenWithXarray: expected input items"
  | .setProjectionAsCoord, .datasets dss =>
      (SetProjectionAsCoord.expand dss).map .datasets
  | .setProjectionAsCoord, _ =>
      .error "SetProjectionAsCoord: expected dataset fragments"
  | .storeToZarr sn tr cd tc, .datasets dss =>
      .ok (.store (StoreToZarr sn tr cd tc dss))
  | .storeToZarr _ _ _ _, _ => .error "StoreToZarr: expected dataset fragments"

/-- Run a list of stages in order, threading the intermediate data. -/
def runStages {V : Type} (open_fn : String → Dataset V) :
    List Stage → PipeData V → Except String (PipeData V)
  | [], d => .ok d
  | s :: rest, d =>
    match s.run open_fn d with
    | .error e => .error e
    | .ok d2 => runStages open_fn rest d2

/-- Embeds the notebook's `with beam.Pipeline() as p: p | transforms`: run the
assembled pipeline from an empty collection. -/
def runPipeline {V : Type} (open_fn : String → Dataset V)
    (target_root : String) : Except String (PipeData V) :=
  runStages open_fn (transforms target_root) (.items [])

/-! ### Helper lemmas about `insertName` and `set_coords` -/

theorem insertName_contains_self (l : List String) (n : String) :
    (insertName l n).contains n = true := by
  unfold insertName
  by_cases h : n ∈ l <;> simp [h]

theorem insertName_contains_other (l : List String) (n m : String) (h : m ≠ n) :
    (insertName l n).contains m = l.contains m := by
  unfold insertName
  by_cases hc : n ∈ l <;> simp [hc, h]

theorem insertName_idem (l : List String) (n : String) :
    insertName (insertName l n) n = insertName l n := by
  show (if (insertName l n).contains n then insertName l n
        else insertName l n ++ [n]) = insertName l n
  rw [insertName_contains_self]
  simp

theorem insertName_ne (l : List String) (n : String) (h : l.contains n = false) :
    insertName l n ≠ l := by
  unfold insertName
  rw [h]
  simp only [Bool.false_eq_true, if_false]
  intro heq
  have := congrArg List.length heq
  simp at this

theorem set_coords_ok {V : Type u} (ds : Dataset V) (name : String)
    (h : ds.hasVariable name = true) :
    ds.set_coords [name] =
      .ok ⟨ds.vars, insertName ds.coord_names name, ds.attrs⟩ := by
  simp [Dataset.set_coords, h]

theorem set_coords_missing {V : Type u} (ds : Dataset V) (name : String)
    (h : ds.hasVariable name = false) :
    ds.set_coords [name] = .error missingVariableError := by
  simp [Dataset.set_coords, h]

theorem hasVariable_mk {V : Type u} (vs : List (String × V)) (cn : List String)
    (a : List (String × String)) (name : String) :
    Dataset.hasVariable ⟨vs, cn, a⟩ name = vs.any (fun p => p.1 == name) := rfl

/-! ### The claims -/

/-- C1: for every indexed fragment `(i, ds)` whose dataset has a variable named
`"Lambert_Conformal"`, the coordinate-promotion step returns the same index
paired with a dataset in which `"Lambert_Conformal"` is classified as a
coordinate field, while every other field's classification, values and
attribute metadata are unchanged. -/
theorem set_projection_as_coord_promotes {ι V : Type} (i : ι) (ds : Dataset V)
    (h : ds.hasVariable "Lambert_Conformal" = true) :
    ∃ ds2 : Dataset V,
      SetProjectionAsCoord.set_projection_as_coord (i, ds) = .ok (i, ds2) ∧
      ds2.isCoord "Lambert_Conformal" = true ∧
      ds2.vars = ds.vars ∧
      ds2.attrs = ds.attrs ∧
      ∀ n : String, n ≠ "Lambert_Conformal" →
        ds2.isCoord n = ds.isCoord n ∧ ds2.isDataVar n = ds.isDataVar n := by
  refine ⟨⟨ds.vars, insertName ds.coord_names "Lambert_Conformal", ds.attrs⟩,
    ?_, ?_, rfl, rfl, ?_⟩
  · simp [SetProjectionAsCoord.set_projection_as_coord, set_coords_ok ds _ h]
  · simp only [Dataset.isCoord, hasVariable_mk, insertName_contains_self,
      Bool.and_true]
    exact h
  · intro n hn
    constructor
    · simp only [Dataset.isCoord, hasVariable_mk, Dataset.hasVariable,
        insertName_contains_other _ _ _ hn]
    · simp only [Dataset.isDataVar, hasVariable_mk, Dataset.hasVariable,
        insertName_contains_other _ _ _ hn]

/-- An example dataset used to instantiate the theorems: the variables of the
NARR file (`air` data, the `Lambert_Conformal` grid-mapping variable, and the
`time` coordinate), with values abstracted to `Nat`. -/
def dsEx : Dataset Nat :=
  { vars := [("air", 1), ("Lambert_Conformal", 0), ("time", 2)],
    coord_names := ["time"],
    attrs := [("title", "NARR")] }

/-- Witness for C1 at the concrete dataset `dsEx` and index `0`. -/
theorem set_projection_as_coord_promotes_witness :
    dsEx.hasVariable "Lambert_Conformal" = true ∧
    ∃ ds2 : Dataset Nat,
      SetProjectionAsCoord.set_projection_as_coord (0, dsEx) = .ok (0, ds2) ∧
      ds2.isCoord "Lambert_Conformal" = true ∧
      ds2.vars = dsEx.vars ∧
      ds2.attrs = dsEx.attrs ∧
      ∀ n : String, n ≠ "Lambert_Conformal" →
        ds2.isCoord n = dsEx.isCoord n ∧ ds2.isDataVar n = dsEx.isDataVar n :=
  ⟨by decide, set_projection_as_coord_promotes 0 dsEx (by decide)⟩

/-- C2: the URL formatter returns the fixed template with the time label
substituted in the designated position, and on the literal input `"197901"` it
returns exactly the NARR January 1979 OPeNDAP URL. -/
theorem format_function_template :
    (∀ t : String, format_function t =
      "https://psl.noaa.gov/thredds/dodsC/Datasets/NARR/pressure/air." ++ t
        ++ ".nc") ∧
    format_function "197901" =
      "https://psl.noaa.gov/thredds/dodsC/Datasets/NARR/pressure/air.197901.nc" :=
  ⟨fun _ => rfl, rfl⟩

/-- C3: the coordinate-promotion step is idempotent on fragments whose dataset
has the `"Lambert_Conformal"` variable: running it a second time on the output
returns that output unchanged, so applying it twice equals applying it once. -/
theorem set_projection_as_coord_idem {ι V : Type} (i : ι) (ds : Dataset V)
    (h : ds.hasVariable "Lambert_Conformal" = true) :
    (SetProjectionAsCoord.set_projection_as_coord (i, ds)).bind
        SetProjectionAsCoord.set_projection_as_coord
      = SetProjectionAsCoord.set_projection_as_coord (i, ds) := by
  simp only [SetProjectionAsCoord.set_projection_as_coord, set_coords_ok ds _ h]
  have h2 : Dataset.hasVariable
      (⟨ds.vars, insertName ds.coord_names "Lambert_Conformal", ds.attrs⟩ :
        Dataset V) "Lambert_Conformal" = true := h
  simp [SetProjectionAsCoord.set_projection_as_coord, Except.bind,
    set_coords_ok _ _ h2, insertName_idem]

/-- Witness for C3 at the concrete dataset `dsEx` and index `0`. -/
theorem set_projection_as_coord_idem_witness :
    dsEx.hasVariable "Lambert_Conformal" = true ∧
    (SetProjectionAsCoord.set_projection_as_coord (0, dsEx)).bind
        SetProjectionAsCoord.set_projection_as_coord
      = SetProjectionAsCoord.set_projection_as_coord (0, dsEx) :=
  ⟨by decide, set_projection_as_coord_idem 0 dsEx (by decide)⟩

/-- C4: the coordinate-promotion step performs no error handling: on a fragment
whose dataset lacks the `"Lambert_Conformal"` variable it fails with exactly
the `set_coords` error, and in general it raises a given error if and only if
`set_coords` raises that error (nothing is caught or substituted). -/
theorem set_projection_as_coord_propagates {ι V : Type} (i : ι) (ds : Dataset V)
    (h : ds.hasVariable "Lambert_Conformal" = false) :
    SetProjectionAsCoord.set_projection_as_coord (i, ds)
        = .error missingVariableError ∧
    ds.set_coords ["Lambert_Conformal"] = .error missingVariableError ∧
    ∀ e : String,
      SetProjectionAsCoord.set_projection_as_coord (i, ds) = .error e ↔
        ds.set_coords ["Lambert_Conformal"] = .error e := by
  refine ⟨?_, set_coords_missing ds _ h, ?_⟩
  · simp [SetProjectionAsCoord.set_projection_as_coord, set_coords_missing ds _ h]
  · intro e
    unfold SetProjectionAsCoord.set_projection_as_coord
    cases hsc : Dataset.set_coords ds ["Lambert_Conformal"] <;> simp [hsc]

/-- Witness for C4 at a concrete dataset without `"Lambert_Conformal"`. -/
theorem set_projection_as_coord_propagates_witness :
    Dataset.hasVariable (⟨[("air", 1)], [], []⟩ : Dataset Nat)
        "Lambert_Conformal" = false ∧
    SetProjectionAsCoord.set_projection_as_coord
        (0, (⟨[("air", 1)], [], []⟩ : Dataset Nat))
      = .error missingVariableError :=
  ⟨by decide,
    (set_projection_as_coord_propagates 0 (⟨[("air", 1)], [], []⟩ : Dataset Nat)
      (by decide)).1⟩

/-- C7: the URL formatter is pure, deterministic, and total over any string
input: every string `t` (including the empty string) is mapped, without any
validation or failure, to the template with `t` substituted, and equal inputs
give equal outputs. -/
theorem format_function_pure_total (t : String) :
    format_function t =
      "https://psl.noaa.gov/thredds/dodsC/Datasets/NARR/pressure/air." ++ t
        ++ ".nc" ∧
    ∀ t2 : String, t = t2 → format_function t = format_function t2 :=
  ⟨rfl, fun _ h => by rw [h]⟩

/-- Witness for C7 at the empty string (a degenerate, unvalidated input). -/
theorem format_function_pure_total_witness :
    format_function "" =
      "https://psl.noaa.gov/thredds/dodsC/Datasets/NARR/pressure/air..nc" ∧
    format_function "" = format_function "" :=
  ⟨(format_function_pure_total "").1,
    (format_function_pure_total "").2 "" rfl⟩

/-- C10: the coordinate-promotion step does not mutate its input: its output
dataset is exactly the fresh dataset built by the non-mutating `set_coords`
operation, and after the call the input dataset value still classifies
`"Lambert_Conformal"` as a data field; in particular the output differs from
the input in its coordinate-name set rather than updating it in place. -/
theorem set_projection_as_coord_no_mutation {ι V : Type} (i : ι)
    (ds : Dataset V) (h : ds.isDataVar "Lambert_Conformal" = true) :
    SetProjectionAsCoord.set_projection_as_coord (i, ds)
        = (ds.set_coords ["Lambert_Conformal"]).map (fun d => (i, d)) ∧
    ∃ ds2 : Dataset V,
      SetProjectionAsCoord.set_projection_as_coord (i, ds) = .ok (i, ds2) ∧
      ds2.isCoord "Lambert_Conformal" = true ∧
      ds.isDataVar "Lambert_Conformal" = true ∧
      ds2.coord_names ≠ ds.coord_names := by
  have hv : ds.hasVariable "Lambert_Conformal" = true := by
    have := h
    unfold Dataset.isDataVar at this
    exact (Bool.and_eq_true_iff.mp this).1
  have hnc : ds.coord_names.contains "Lambert_Conformal" = false := by
    have := h
    unfold Dataset.isDataVar at this
    have h2 := (Bool.and_eq_true_iff.mp this).2
    simpa using h2
  refine ⟨?_, ?_⟩
  · unfold SetProjectionAsCoord.set_projection_as_coord
    cases hsc : Dataset.set_coords ds ["Lambert_Conformal"] <;> simp [hsc, Except.map]
  · refine ⟨⟨ds.vars, insertName ds.coord_names "Lambert_Conformal", ds.attrs⟩,
      ?_, ?_, h, ?_⟩
    · simp [SetProjectionAsCoord.set_projection_as_coord, set_coords_ok ds _ hv]
    · simp only [Dataset.isCoord, hasVariable_mk, insertName_contains_self,
        Bool.and_true]
      exact hv
    · exact insertName_ne ds.coord_names "Lambert_Conformal" hnc

/-- Witness for C10 at the concrete dataset `dsEx` and index `0`. -/
theorem set_projection_as_coord_no_mutation_witness :
    dsEx.isDataVar "Lambert_Conformal" = true ∧
    (SetProjectionAsCoord.set_projection_as_coord (0, dsEx)
        = (dsEx.set_coords ["Lambert_Conformal"]).map (fun d => (0, d)) ∧
      ∃ ds2 : Dataset Nat,
        SetProjectionAsCoord.set_projection_as_coord (0, dsEx) = .ok (0, ds2) ∧
        ds2.isCoord "Lambert_Conformal" = true ∧
        dsEx.isDataVar "Lambert_Conformal" = true ∧
        ds2.coord_names ≠ dsEx.coord_names) :=
  ⟨by decide, set_projection_as_coord_no_mutation 0 dsEx (by decide)⟩

/-- If `beam.Map f` over a collection succeeds, it relates inputs and outputs
element-wise by `f`. -/
theorem beam_map_ok_forall₂ {α β : Type} (f : α → Except String β) :
    ∀ (l : List α) (out : List β), Beam.Map f l = .ok out →
      List.Forall₂ (fun a b => f a = .ok b) l out := by
  intro l
  induction l with
  | nil =>
    intro out h
    simp only [Beam.Map] at h
    cases h
    exact List.Forall₂.nil
  | cons a l ih =>
    intro out h
    simp only [Beam.Map] at h
    cases hfa : f a with
    | error e => rw [hfa] at h; simp at h
    | ok b =>
      rw [hfa] at h
      cases hml : Beam.Map f l with
      | error e => rw [hml] at h; simp at h
      | ok bs =>
        rw [hml] at h
        simp only [Except.ok.injEq] at h
        subst h
        exact List.Forall₂.cons hfa (ih bs hml)

/-- C9: `SetProjectionAsCoord.expand` is the element-wise map of the
coordinate-promotion step over the input collection: on success the output has
as many elements as the input, each output element is the result of
`set_projection_as_coord` on the corresponding input element, and each element
keeps its index component (nothing is dropped, added, or re-keyed). -/
theorem expand_elementwise {ι V : Type} (pcoll out : List (ι × Dataset V))
    (h : SetProjectionAsCoord.expand pcoll = .ok out) :
    out.length = pcoll.length ∧
    List.Forall₂ (fun a b : ι × Dataset V =>
      SetProjectionAsCoord.set_projection_as_coord a = .ok b ∧ b.1 = a.1)
      pcoll out := by
  have h2 := beam_map_ok_forall₂ SetProjectionAsCoord.set_projection_as_coord
    pcoll out h
  refine ⟨(List.Forall₂.length_eq h2).symm, ?_⟩
  refine List.Forall₂.imp ?_ h2
  intro a b hab
  refine ⟨hab, ?_⟩
  unfold SetProjectionAsCoord.set_projection_as_coord at hab
  cases hsc : Dataset.set_coords a.2 ["Lambert_Conformal"] with
  | error e => rw [hsc] at hab; cases hab
  | ok d =>
    rw [hsc] at hab
    cases hab
    rfl

/-- The result of promoting `"Lambert_Conformal"` on `dsEx`: same variables and
attributes, with `"Lambert_Conformal"` added to the coordinate names. -/
def dsEx2 : Dataset Nat :=
  { vars := [("air", 1), ("Lambert_Conformal", 0), ("time", 2)],
    coord_names := ["time", "Lambert_Conformal"],
    attrs := [("title", "NARR")] }

/-- Witness for C9 on the one-element collection `[(0, dsEx)]`. -/
theorem expand_elementwise_witness :
    [((0 : Nat), dsEx2)].length = [((0 : Nat), dsEx)].length ∧
    List.Forall₂ (fun a b : Nat × Dataset Nat =>
      SetProjectionAsCoord.set_projection_as_coord a = .ok b ∧ b.1 = a.1)
      [(0, dsEx)] [(0, dsEx2)] :=
  expand_elementwise [(0, dsEx)] [(0, dsEx2)] rfl

/-- C5: the assembled pipeline is a linear composition of exactly four stages,
in order: enumerate the pattern's items, open each with xarray, apply the
coordinate-promotion transform, and store to Zarr with the target chunking;
no other stage — in particular no `OpenURLWithFSSpec` download stage —
appears. -/
theorem transforms_linear_four_stages (target_root : String) :
    transforms target_root =
      [ Stage.create pattern.items,
        Stage.openWithXarray "opendap",
        Stage.setProjectionAsCoord,
        Stage.storeToZarr store_name target_root ["time"] [("time", 1)] ] ∧
    (transforms target_root).length = 4 ∧
    Stage.openURLWithFSSpec ∉ transforms target_root := by
  refine ⟨rfl, rfl, ?_⟩
  intro hm
  simp [transforms] at hm

/-- C8: the declared file pattern enumerates exactly one input item, keyed by
the single time label `"197901"` on the `"time"` dimension; `"time"` is the
sole combine dimension, and the store stage of the pipeline receives exactly
those combine dimensions. -/
theorem pattern_single_item_time_dim :
    pattern.items = [(("time", "197901"), format_function "197901")] ∧
    pattern.items.length = 1 ∧
    pattern.combine_dim_keys = ["time"] ∧
    ∀ target_root : String,
      Stage.storeToZarr store_name target_root ["time"] [("time", 1)]
        ∈ transforms target_root := by
  refine ⟨rfl, rfl, rfl, ?_⟩
  intro target_root
  simp [transforms, pattern, FilePattern.combine_dim_keys, time_dim]

/-- C6: running the assembled pipeline (with the external opener abstracted,
provided the opened dataset has the `"Lambert_Conformal"` variable) produces a
chunked store at the target path `target_root/output.zarr` whose `"time"`
dimension has chunk size 1. -/
theorem pipeline_produces_chunked_store {V : Type} (open_fn : String → Dataset V)
    (target_root : String)
    (h : (open_fn (format_function "197901")).hasVariable "Lambert_Conformal"
      = true) :
    ∃ st : ZarrStore V,
      runPipeline open_fn target_root = .ok (.store st) ∧
      st.path = target_root ++ "/" ++ store_name ∧
      st.chunks = [("time", 1)] ∧
      st.chunks.lookup "time" = some 1 := by
  refine ⟨StoreToZarr store_name target_root pattern.combine_dim_keys
      [("time", 1)]
      [(("time", "197901"),
        ⟨(open_fn (format_function "197901")).vars,
          insertName (open_fn (format_function "197901")).coord_names
            "Lambert_Conformal",
          (open_fn (format_function "197901")).attrs⟩)], ?_, rfl, rfl, rfl⟩
  simp only [runPipeline, transforms, runStages, Stage.run, pattern,
    FilePattern.items, time_dim, List.map, SetProjectionAsCoord.expand,
    Beam.Map, SetProjectionAsCoord.set_projection_as_coord,
    set_coords_ok _ _ h, Except.map]

/-- Witness for C6 with a constant opener returning `dsEx` and a concrete
target directory. -/
theorem pipeline_produces_chunked_store_witness :
    ((fun _ => dsEx : String → Dataset Nat)
        (format_function "197901")).hasVariable "Lambert_Conformal" = true ∧
    ∃ st : ZarrStore Nat,
      runPipeline (fun _ => dsEx) "/tmp/narr" = .ok (.store st) ∧
      st.path = "/tmp/narr" ++ "/" ++ store_name ∧
      st.chunks = [("time", 1)] ∧
      st.chunks.lookup "time" = some 1 :=
  ⟨by decide,
    pipeline_produces_chunked_store (fun _ => dsEx) "/tmp/narr" (by decide)⟩
